import Mathlib

/-!
Shallow embedding of the `quequ` bounded ring-buffer queue (package `queue`,
file `quequ.go`).  The file holds two variants of the same queue: the
`DefaultQueue` variant and the `LFQueue` variant; both are embedded below.

Conventions of the embedding:

* Unsigned 32-bit machine integers are modelled as natural numbers below
  `U32 = 2 ^ 32`; every Go operation that can wrap (increment, `Add`,
  decrement, the subtraction inside `posCount`) is followed by an explicit
  `% U32` (or rearranged into a form that is equal to the wrapped value for
  in-range inputs).
* Go `interface{}` payloads are modelled by `Option V`; the Go `nil` is
  `none`.
* `Put` and `Get` are embedded for a single thread at a time (the setting of
  the sequential claims below): the `CAS` on a cursor always succeeds, and
  the inner spin loop on a slot either succeeds on its first test or runs
  forever, because no other thread ever mutates the slot.  A result of
  `none` therefore means the call never returns (the spin loop does not
  terminate); `some` carries the returned tuple together with the queue
  state after the call.
-/

/-- The number of values of an unsigned 32-bit integer. -/
def U32 : Nat := 2 ^ 32

/-- `var MinCap uint32 = 8` (the `LFQueue` file declares the same value as a
constant). -/
def MinCap : Nat := 8

/-- One `v |= v >> k` smearing step of `minRoundNumBy2`. -/
def orShift (v k : Nat) : Nat := v ||| v >>> k

/-- The five smearing steps `v |= v >> 1; ...; v |= v >> 16` shared by both
`minRoundNumBy2` variants. -/
def smear32 (v : Nat) : Nat :=
  orShift (orShift (orShift (orShift (orShift v 1) 2) 4) 8) 16

/-- `func (q *DefaultQueue) minRoundNumBy2(v uint32) uint32`.
The receiver is unused in the Go code.  `^v == 0` (bitwise complement is
zero) is written `v ^^^ (U32 - 1) = 0`; the `v--` / `v++` of the two
branches are the wrapping decrement / increment. -/
def DefaultQueue.minRoundNumBy2 (v : Nat) : Nat :=
  let v := if v < MinCap then MinCap else v
  let v := smear32 v
  if v ^^^ (U32 - 1) = 0 then (v + U32 - 1) % U32 else (v + 1) % U32

/-- `type slot struct { writeID, readID *atomic.Uint32; value interface{} }` -/
structure Slot (V : Type) where
  writeID : Nat
  readID  : Nat
  value   : Option V
deriving DecidableEq

/-- `type DefaultQueue struct { cap, capMod uint32; write, read *atomic.Uint32;
carrier []slot }` -/
structure DefaultQueue (V : Type) where
  cap     : Nat
  capMod  : Nat
  write   : Nat
  read    : Nat
  carrier : List (Slot V)
deriving DecidableEq

/-- Net effect of the slot-initialisation code in `NewQueue`: slot `0` gets
both generation counters set to `cap` (`tmp.writeID = atomic.NewUint32(q.cap)`
and likewise for `readID`), and the loop `for i := 1; i < q.cap; i++` sets
both counters of slot `i` to `i`.  Payloads start as `nil`. -/
def initSlot (V : Type) (cap i : Nat) : Slot V :=
  if i = 0 then { writeID := cap, readID := cap, value := none }
  else { writeID := i, readID := i, value := none }

/-- `func NewQueue(cap uint32) Queue` of the `DefaultQueue` variant. -/
def NewQueue (V : Type) (cap : Nat) : DefaultQueue V :=
  let c := DefaultQueue.minRoundNumBy2 cap
  { cap := c
    capMod := c - 1
    write := 0
    read := 0
    carrier := (List.range c).map (initSlot V c) }

/-- `func (q *DefaultQueue) posCount(read, write uint32) uint32`:
`if write > read { return write - read }; return q.cap - read + write`.
The `else` branch is uint32 arithmetic, so it is taken modulo `U32`. -/
def DefaultQueue.posCount {V : Type} (q : DefaultQueue V) (read write : Nat) : Nat :=
  if write > read then write - read
  else (q.cap + (U32 - read) + write) % U32

/-- `func (q *DefaultQueue) Put(val interface{}) (ok bool, count uint32)`,
for a single thread: the admission check `cnt >= q.capMod-1` fails fast;
otherwise the CAS `q.write.CAS(write, posNext)` succeeds (no rival producer)
and the spin loop on slot `posNext & q.capMod` either succeeds on its first
test or never terminates (`none`).  An out-of-range slot index (impossible
for queues built by `NewQueue`) also yields `none`. -/
def DefaultQueue.put {V : Type} (q : DefaultQueue V) (val : Option V) :
    Option ((Bool × Nat) × DefaultQueue V) :=
  let cnt := q.posCount q.read q.write
  if (q.capMod + U32 - 1) % U32 ≤ cnt then
    some ((false, cnt), q)
  else
    let posNext := (q.write + 1) % U32
    let idx := posNext &&& q.capMod
    match q.carrier.get? idx with
    | none => none
    | some cache =>
      if posNext = cache.writeID ∧ cache.readID = cache.writeID then
        some ((true, (cnt + 1) % U32),
          { q with
              write := posNext
              carrier := q.carrier.set idx
                { cache with
                    value := val
                    writeID := (cache.writeID + q.cap) % U32 } })
      else none

/-- `func (q *DefaultQueue) Get() (val interface{}, ok bool, count uint32)`,
for a single thread, with the same conventions as `put`.  On a successful
spin the payload is copied out, the slot payload is reset to `nil`, the
slot's `readID` is advanced by `q.cap`, and `ok` is `false` when the copied
payload was `nil`. -/
def DefaultQueue.get {V : Type} (q : DefaultQueue V) :
    Option ((Option V × Bool × Nat) × DefaultQueue V) :=
  let cnt := q.posCount q.read q.write
  if cnt < 1 then
    some ((none, false, cnt), q)
  else
    let getPosNext := (q.read + 1) % U32
    let idx := getPosNext &&& q.capMod
    match q.carrier.get? idx with
    | none => none
    | some cache =>
      if getPosNext = cache.readID ∧ (cache.readID + q.cap) % U32 = cache.writeID then
        some ((cache.value, cache.value.isSome, cnt - 1),
          { q with
              read := getPosNext
              carrier := q.carrier.set idx
                { cache with
                    value := none
                    readID := (cache.readID + q.cap) % U32 } })
      else none

namespace LF

/-- `func minRoundNumBy2(v uint32) uint32` of the `LFQueue` variant:
`v--` (wrapping), the five smears, then `v++` (wrapping, no overflow
guard). -/
def minRoundNumBy2 (v : Nat) : Nat :=
  let v := (v + U32 - 1) % U32
  let v := smear32 v
  (v + 1) % U32

/-- `type slot struct { putID, getID *atomic.Uint32; value interface{} }`
(the `LFQueue` variant's field names). -/
structure Slot (V : Type) where
  putID : Nat
  getID : Nat
  value : Option V
deriving DecidableEq

/-- Net effect of the slot-initialisation code in the `LFQueue` variant's
`NewQueue`: slot `0` gets `putID = getID = capacity`, slot `i ≥ 1` gets
`putID = getID = i`. -/
def initSlot (V : Type) (cap i : Nat) : Slot V :=
  if i = 0 then { putID := cap, getID := cap, value := none }
  else { putID := i, getID := i, value := none }

/-- `type LFQueue struct { capacity, capMod uint32; putPos, getPos
*atomic.Uint32; carrier []slot }` -/
structure LFQueue (V : Type) where
  capacity : Nat
  capMod   : Nat
  putPos   : Nat
  getPos   : Nat
  carrier  : List (Slot V)
deriving DecidableEq

/-- `func NewQueue(cap uint32) IQueue` of the `LFQueue` variant:
`if cap < 1 { cap = MinCap }` and then `minRoundNumBy2(cap)`. -/
def NewQueue (V : Type) (cap : Nat) : LFQueue V :=
  let cap := if cap < 1 then MinCap else cap
  let c := minRoundNumBy2 cap
  { capacity := c
    capMod := c - 1
    putPos := 0
    getPos := 0
    carrier := (List.range c).map (initSlot V c) }

end LF

/-- A concrete `DefaultQueue` state: capacity 8, one reserved-and-published
slot (index 1) whose payload is `nil` — the state left behind by a completed
`Put(nil)`. -/
def nilSlotQueue : DefaultQueue Nat :=
  { cap := 8
    capMod := 7
    write := 1
    read := 0
    carrier :=
      [ { writeID := 8, readID := 8, value := none }
      , { writeID := 9, readID := 1, value := none }
      , { writeID := 2, readID := 2, value := none }
      , { writeID := 3, readID := 3, value := none }
      , { writeID := 4, readID := 4, value := none }
      , { writeID := 5, readID := 5, value := none }
      , { writeID := 6, readID := 6, value := none }
      , { writeID := 7, readID := 7, value := none } ] }

/-! ## Helper lemmas -/

theorem lor_lt {x y n : Nat} (hx : x < 2 ^ n) (hy : y < 2 ^ n) : x ||| y < 2 ^ n :=
  Nat.bitwise_lt hx hy

theorem shiftRight_le_self (x k : Nat) : x >>> k ≤ x := by
  rw [Nat.shiftRight_eq_div_pow]
  exact Nat.div_le_self x (2 ^ k)

theorem orShift_lt {v n : Nat} (k : Nat) (h : v < 2 ^ n) : orShift v k < 2 ^ n :=
  lor_lt h (Nat.lt_of_le_of_lt (shiftRight_le_self v k) h)

theorem smear32_lt {v n : Nat} (h : v < 2 ^ n) : smear32 v < 2 ^ n :=
  orShift_lt 16 (orShift_lt 8 (orShift_lt 4 (orShift_lt 2 (orShift_lt 1 h))))

theorem xor_allones_ne {v : Nat} (h : v ≠ U32 - 1) : v ^^^ (U32 - 1) ≠ 0 := by
  intro h0
  exact h (Nat.xor_eq_zero.mp h0)

/-- `posCount` applied to two equal cursor values returns the full capacity
(the `write > read` branch is not taken, and
`cap - read + write = cap` modulo `U32`). -/
theorem posCount_self {V : Type} (q : DefaultQueue V) (r : Nat)
    (hr : r ≤ U32) (hc : q.cap < U32) : q.posCount r r = q.cap := by
  unfold DefaultQueue.posCount
  rw [if_neg (lt_irrefl r)]
  have h1 : q.cap + (U32 - r) + r = q.cap + U32 := by omega
  rw [h1, Nat.add_mod_right, Nat.mod_eq_of_lt hc]

/-- The admission threshold `q.capMod - 1` of `Put` (a wrapping uint32
decrement) equals `q.cap - 2` whenever `capMod = cap - 1` and `cap ≥ 2`. -/
theorem put_threshold_eq {V : Type} (q : DefaultQueue V)
    (hm : q.capMod = q.cap - 1) (h2 : 2 ≤ q.cap) (hc : q.cap < U32) :
    (q.capMod + U32 - 1) % U32 = q.cap - 2 := by
  have h1 : q.capMod + U32 - 1 = (q.cap - 2) + U32 := by
    have : 0 < U32 := by decide
    omega
  rw [h1, Nat.add_mod_right, Nat.mod_eq_of_lt (by omega)]

/-! ## Claim theorems -/

/-- Claim C1: whenever the read and write cursors are equal (in particular on
every freshly constructed queue), `posCount(read, write)` returns the full
capacity, so `Put` fails its admission check `count >= capacity - 2` and
returns `(false, capacity)` without reserving a cursor position or mutating
any state (the returned queue is the argument queue, unchanged). -/
theorem c1_put_on_empty_queue_fails {V : Type} (q : DefaultQueue V) (val : Option V)
    (hrw : q.read = q.write) (hr : q.read < U32) (hc : q.cap < U32)
    (hm : q.capMod = q.cap - 1) (h2 : 2 ≤ q.cap) :
    q.posCount q.read q.write = q.cap ∧
    q.put val = some ((false, q.cap), q) := by
  have hpc : q.posCount q.read q.write = q.cap := by
    rw [← hrw]
    exact posCount_self q q.read (Nat.le_of_lt hr) hc
  refine ⟨hpc, ?_⟩
  simp only [DefaultQueue.put, hpc, put_threshold_eq q hm h2 hc]
  rw [if_pos (by omega)]

theorem c1_witness :
    (NewQueue Nat 4).posCount (NewQueue Nat 4).read (NewQueue Nat 4).write =
      (NewQueue Nat 4).cap ∧
    (NewQueue Nat 4).put (some 7) = some ((false, (NewQueue Nat 4).cap), NewQueue Nat 4) :=
  c1_put_on_empty_queue_fails (NewQueue Nat 4) (some 7)
    (by decide) (by decide) (by decide) (by decide) (by decide)

/-- Claim C2: the spec's concrete scenario fails at its very first step.
`NewQueue(4)` yields capacity 16 (not the 8 the scenario expects), and the
first `Put` on the fresh queue returns `(false, 16)` instead of the claimed
`(true, 1)`, because `posCount(0, 0) = 16 ≥ capMod - 1 = 14`. -/
theorem c2_scenario_first_put_fails :
    (NewQueue Nat 4).cap = 16 ∧
    (NewQueue Nat 4).put (some 0) = some ((false, 16), NewQueue Nat 4) := by
  decide

/-- Claim C3: on the fresh (empty) queue, `Get` does not return `ok = false`:
`posCount(0, 0) = 16`, so the emptiness check `cnt < 1` passes, the read
cursor is reserved, and the call then spins forever on slot 1 (whose
generations satisfy `readID = writeID = 1`, never `readID + cap = writeID`).
In this embedding a never-returning call is the result `none`. -/
theorem c3_get_on_fresh_queue_never_returns :
    (NewQueue Nat 4).get = none ∧ (NewQueue Nat 4).posCount 0 0 = 16 := by
  decide

/-- Claim C4: capacity rounding does not compute the smallest power of two
that is at least `max(r, MinCap)`.  The `DefaultQueue` resolver doubles exact
powers of two (`minRoundNumBy2 8 = 16`, `minRoundNumBy2 16 = 32`, so
`NewQueue(8)` has capacity 16, not 8), and the `LFQueue` constructor applies
no `MinCap` floor for requests `≥ 1` (`NewQueue(3)` has capacity 4, not 8). -/
theorem c4_capacity_rounding_diverges :
    DefaultQueue.minRoundNumBy2 8 = 16 ∧
    DefaultQueue.minRoundNumBy2 16 = 32 ∧
    (NewQueue Unit 8).cap = 16 ∧
    (LF.NewQueue Unit 3).capacity = 4 := by
  decide

/-- Claim C5: no sequence of `n ≥ 1` first-attempt-successful Puts followed by
Gets exists at all, because the very first Put from the fresh queue fails for
every payload value: `posCount(0, 0)` equals the capacity, which is above the
admission threshold.  FIFO delivery is therefore unrealisable from a freshly
constructed queue. -/
theorem c5_no_put_succeeds_from_fresh_queue (v : Option Nat) :
    (NewQueue Nat 4).put v = some ((false, 16), NewQueue Nat 4) := rfl

/-- Claim C6 (counterexample): slot 0 of a freshly constructed queue has
`writeID = readID = 16` (the capacity), not `0` as the claim states. -/
theorem c6_counterexample :
    (NewQueue Unit 4).carrier.get? 0 =
      some { writeID := 16, readID := 16, value := none } ∧
    ¬ ((NewQueue Unit 4).carrier.get? 0 =
      some { writeID := 0, readID := 0, value := none }) := by
  decide

/-- Claim C6 (amended): at construction, slot 0's generation counters are both
initialised to the capacity, and every other slot `i ∈ [1, capacity)` has
both counters initialised to `i` — in both queue variants. -/
theorem c6_slot_initialisation {V : Type} (r i j : Nat)
    (hi : i < (NewQueue V r).cap) (hj : j < (LF.NewQueue V r).capacity) :
    (NewQueue V r).carrier.get? i =
      some { writeID := if i = 0 then (NewQueue V r).cap else i
             readID  := if i = 0 then (NewQueue V r).cap else i
             value   := none } ∧
    (LF.NewQueue V r).carrier.get? j =
      some { putID := if j = 0 then (LF.NewQueue V r).capacity else j
             getID := if j = 0 then (LF.NewQueue V r).capacity else j
             value := none } := by
  simp only [NewQueue, LF.NewQueue] at *
  constructor
  · rw [List.get?_map, List.get?_range hi]
    simp only [Option.map_some', initSlot]
    by_cases h0 : i = 0 <;> simp [h0]
  · rw [List.get?_map, List.get?_range hj]
    simp only [Option.map_some', LF.initSlot]
    by_cases h0 : j = 0 <;> simp [h0]

theorem c6_witness :
    (NewQueue Unit 4).carrier.get? 0 =
      some { writeID := 16, readID := 16, value := none } ∧
    (LF.NewQueue Unit 4).carrier.get? 3 =
      some { putID := 3, getID := 3, value := none } :=
  c6_slot_initialisation 4 0 3 (by decide) (by decide)

/-- Claim C7: whenever the cursor snapshot yields `count ≥ capacity - 2` (the
threshold is `capMod - 1 = capacity - 2`, not `capacity - 1`), `Put` returns
`(false, count)` immediately; the returned queue is the argument queue
itself, so the cursors, every slot generation and every payload are
unchanged. -/
theorem c7_admission_denied_no_mutation {V : Type} (q : DefaultQueue V) (val : Option V)
    (hm : q.capMod = q.cap - 1) (h2 : 2 ≤ q.cap) (hc : q.cap < U32)
    (h : q.cap - 2 ≤ q.posCount q.read q.write) :
    q.put val = some ((false, q.posCount q.read q.write), q) := by
  simp only [DefaultQueue.put, put_threshold_eq q hm h2 hc]
  rw [if_pos h]

theorem c7_witness :
    (NewQueue Nat 4).put (some 5) =
      some ((false, (NewQueue Nat 4).posCount (NewQueue Nat 4).read (NewQueue Nat 4).write),
        NewQueue Nat 4) :=
  c7_admission_denied_no_mutation (NewQueue Nat 4) (some 5)
    (by decide) (by decide) (by decide) (by decide)

/-- Claim C8 (counterexample): the `LFQueue` variant's resolver does wrap to
zero: for the requested capacity `2^31 + 1` (above the largest representable
power of two) it returns `0`. -/
theorem c8_counterexample : LF.minRoundNumBy2 (2 ^ 31 + 1) = 0 := by
  decide

/-- Claim C8 (amended): only the `DefaultQueue` variant's resolver saturates:
it never returns `0` for any 32-bit input (for inputs `≥ 2^31` the smeared
value is all-ones and the guarded decrement yields `2^32 - 2`), while the
`LFQueue` variant's resolver wraps to `0` above `2^31`. -/
theorem c8_default_resolver_never_zero (v : Nat) (hv : v < U32) :
    DefaultQueue.minRoundNumBy2 v ≠ 0 := by
  unfold DefaultQueue.minRoundNumBy2
  have hw : (if v < MinCap then MinCap else v) < U32 := by
    split
    · decide
    · exact hv
  have hs : smear32 (if v < MinCap then MinCap else v) < U32 := smear32_lt hw
  by_cases hx : smear32 (if v < MinCap then MinCap else v) ^^^ (U32 - 1) = 0
  · rw [if_pos hx]
    have he : smear32 (if v < MinCap then MinCap else v) = U32 - 1 :=
      Nat.xor_eq_zero.mp hx
    rw [he]
    have h1 : U32 - 1 + U32 - 1 = (U32 - 2) + U32 := by
      have : 2 ≤ U32 := by decide
      omega
    rw [h1, Nat.add_mod_right, Nat.mod_eq_of_lt (by omega)]
    have : 2 < U32 := by decide
    omega
  · rw [if_neg hx]
    have hne : smear32 (if v < MinCap then MinCap else v) ≠ U32 - 1 := by
      intro he
      exact hx (by rw [he]; exact Nat.xor_self _)
    rw [Nat.mod_eq_of_lt (by omega)]
    omega

theorem c8_witness : 2 ^ 31 + 1 < U32 ∧ DefaultQueue.minRoundNumBy2 (2 ^ 31 + 1) ≠ 0 :=
  ⟨by decide, c8_default_resolver_never_zero (2 ^ 31 + 1) (by decide)⟩

/-- Claim C9: when `Get`'s spin condition `getPosNext == readID &&
readID + cap == writeID` holds but the slot payload is the empty marker
(`nil`), the call completes the slot protocol — the payload is cleared and
`readID` is advanced by the capacity — yet returns `ok = false` together
with that `nil` value. -/
theorem c9_get_nil_payload_reports_failure {V : Type} (q : DefaultQueue V) (cache : Slot V)
    (h1 : 1 ≤ q.posCount q.read q.write)
    (h2 : q.carrier.get? (((q.read + 1) % U32) &&& q.capMod) = some cache)
    (h3 : (q.read + 1) % U32 = cache.readID)
    (h4 : (cache.readID + q.cap) % U32 = cache.writeID)
    (h5 : cache.value = none) :
    q.get = some ((none, false, q.posCount q.read q.write - 1),
      { q with
          read := (q.read + 1) % U32
          carrier := q.carrier.set (((q.read + 1) % U32) &&& q.capMod)
            { cache with
                value := none
                readID := (cache.readID + q.cap) % U32 } }) := by
  have hlt : ¬ (q.posCount q.read q.write < 1) := by omega
  simp only [DefaultQueue.get, hlt, if_false, h2]
  rw [if_pos ⟨h3, h4⟩]
  simp [h5]

theorem c9_witness :
    nilSlotQueue.get = some ((none, false, 0),
      { nilSlotQueue with
          read := 1
          carrier := nilSlotQueue.carrier.set 1
            { writeID := 9, readID := 9, value := none } }) :=
  c9_get_nil_payload_reports_failure nilSlotQueue
    { writeID := 9, readID := 1, value := none }
    (by decide) (by decide) (by decide) (by decide) (by decide)

/-- Claim C10 (counterexample): the two constructors are not
capacity-equivalent: for the requested capacity 8 the `DefaultQueue` variant
yields capacity 16 while the `LFQueue` variant yields 8. -/
theorem c10_counterexample :
    (NewQueue Unit 8).cap = 16 ∧ (LF.NewQueue Unit 8).capacity = 8 ∧
    (NewQueue Unit 8).cap ≠ (LF.NewQueue Unit 8).capacity := by
  decide

/-- Claim C10 (amended): the two resolvers differ by an input shift of one:
for every requested capacity `r` with `MinCap ≤ r < 2^31`, the
`DefaultQueue` resolver at `r` equals the `LFQueue` resolver at `r + 1`
(both compute `smear32 r + 1`); they are not pointwise equal (at `r = 8`
they give 16 and 8 respectively). -/
theorem c10_resolvers_agree_shifted_by_one (r : Nat)
    (h8 : MinCap ≤ r) (hr : r < 2 ^ 31) :
    DefaultQueue.minRoundNumBy2 r = LF.minRoundNumBy2 (r + 1) := by
  unfold DefaultQueue.minRoundNumBy2 LF.minRoundNumBy2
  have hnf : ¬ (r < MinCap) := by omega
  rw [if_neg hnf]
  have hdec : r + 1 + U32 - 1 = r + U32 := by omega
  have hrU : r < U32 := by
    have : (2 ^ 31 : Nat) < U32 := by decide
    omega
  rw [hdec, Nat.add_mod_right, Nat.mod_eq_of_lt hrU]
  have hs : smear32 r < 2 ^ 31 := smear32_lt hr
  have hne : smear32 r ^^^ (U32 - 1) ≠ 0 := by
    apply xor_allones_ne
    have : (2 ^ 31 : Nat) < U32 - 1 := by decide
    omega
  rw [if_neg hne]

theorem c10_witness :
    MinCap ≤ 9 ∧ 9 < 2 ^ 31 ∧
    DefaultQueue.minRoundNumBy2 9 = LF.minRoundNumBy2 10 :=
  ⟨by decide, by decide, c10_resolvers_agree_shifted_by_one 9 (by decide) (by decide)⟩
